import Mathlib

/-!
Shallow embedding of `airflow/contrib/auth/backends/ldap_auth.py`
(LDAP-backed authentication backend) and verification of its
specification claims.

The Python module talks to an external LDAP directory through the
`ldap3` library and to Airflow's configuration through `conf.get`.
Both collaborators are modelled as explicit parameters:

* `LdapConfig` is the `[ldap]` configuration section; a key that is
  absent from the configuration is `none` (a `conf.get` on it raises
  `AirflowConfigException`), a present key holds `some value` (which
  may be the empty string).
* `LdapWorld` gives the directory's responses: whether a `bind`
  succeeds for a given dn/password pair, whether a `search` call
  reports success, and the list of entries it returns.

Python exceptions are embedded as the `PyError` sum type and fallible
code returns `Except PyError α`.  Python local-variable semantics are
embedded faithfully: referencing a local that was never assigned
(because the assigning `conf.get` raised and the exception was
swallowed) is an `UnboundLocalError`, embedded as `PyError.nameError`.
-/

namespace LdapAuth

/-- Python exceptions that the module can raise or catch.
`ldapCursorAttributeError` is ldap3's `LDAPCursorAttributeError`,
raised by `getattr` on an `Entry` that does not carry the requested
attribute. -/
inductive PyError
  | airflowConfigException
  | nameError (localVar : String)
  | authenticationError (msg : String)
  | ldapException (msg : String)
  | attributeError
  | indexError
  | keyError
  | ldapCursorAttributeError
  deriving DecidableEq, Repr

/-- The `[ldap]` configuration section.  `none` means the key is absent
(`conf.get` raises `AirflowConfigException`); `some s` means the key is
present with value `s` (possibly the empty string). -/
structure LdapConfig where
  uri : Option String
  bind_user : Option String
  bind_password : Option String
  basedn : Option String
  user_filter : Option String
  user_name_attr : Option String
  superuser_filter : Option String
  data_profiler_filter : Option String
  cacert : Option String
  search_scope : Option String
  group_member_attr : Option String
  ignore_malformed_schema : Option String
  deriving Repr

/-- `conf.get("ldap", key)`: raises `AirflowConfigException` when the
key is absent, otherwise returns its value. -/
def confGet : Option String → Except PyError String
  | none => .error .airflowConfigException
  | some s => .ok s

/-- Python truthiness of an optional string: `None` and `""` are falsy. -/
def pyTruthy : Option String → Bool
  | none => false
  | some s => !s.isEmpty

/-- An ldap3 search scope (`LEVEL` or `SUBTREE`). -/
inductive SearchScope
  | level
  | subtree
  deriving DecidableEq, Repr

/-- `conn.search` without an explicit `search_scope` argument uses the
ldap3 default, `SUBTREE`. -/
def ldap3DefaultScope : SearchScope := .subtree

/-- One element of `conn.response` (equivalently one of `conn.entries`):
an optional distinguished name (the `'dn'` key of the response dict)
and the attribute dictionary, mapping an attribute name to its list of
string values. -/
structure Entry where
  dn : Option String
  attributes : List (String × List String)
  deriving DecidableEq, Repr

/-- Attribute lookup on an entry; an attribute that is not present maps
to no values. -/
def Entry.getAttr (e : Entry) (a : String) : List String :=
  (e.attributes.lookup a).getD []

/-- Whether the attribute name is a key of the entry's attribute dict
(`memberof_attr not in conn.response[0]["attributes"]`). -/
def Entry.hasAttr (e : Entry) (a : String) : Bool :=
  (e.attributes.lookup a).isSome

/-- The directory server's behaviour, as observed through ldap3:
whether a bind as (dn, password) succeeds, whether a search call
reports success, and the response entries of a search. -/
structure LdapWorld where
  bindOk : Option String → Option String → Bool
  searchOk : String → String → List String → SearchScope → Bool
  searchResponse : String → String → List String → SearchScope → List Entry

/-- A bound ldap3 `Connection`, identified by the dn/password it was
created with.  An ldap3 `Connection` object defines no `__bool__` or
`__len__`, so as a Python object it is always truthy. -/
structure Conn where
  dn : Option String
  password : Option String
  deriving Repr

/-- `get_ldap_connection(dn, password)`.

Faithful to the source, in statement order:
1. `try: cacert = conf.get("ldap", "cacert") except AirflowConfigException: pass`
2. `try: ignore_malformed_schema = conf.get(...) except AirflowConfigException: pass`
3. `if ignore_malformed_schema:` — raises `UnboundLocalError` when step 2
   swallowed the exception, since the local was never assigned;
4. `Tls(validate=ssl.CERT_REQUIRED, ca_certs_file=cacert)` — raises
   `UnboundLocalError` when step 1 swallowed the exception;
5. `search_scope = conf.get("ldap", "search_scope")` — NOT guarded, an
   absent key raises `AirflowConfigException` out of the function;
6. `Server(conf.get("ldap", "uri"), ...)` — also unguarded;
7. `Connection(server, dn, password)`; `conn.bind()`; a failed bind
   raises `AuthenticationError("Cannot bind to ldap server")`. -/
def get_ldap_connection (w : LdapWorld) (cfg : LdapConfig)
    (dn password : Option String) : Except PyError Conn :=
  match cfg.ignore_malformed_schema with
  | none => .error (.nameError "ignore_malformed_schema")
  | some _ =>
    match cfg.cacert with
    | none => .error (.nameError "cacert")
    | some _ =>
      match cfg.search_scope with
      | none => .error .airflowConfigException
      | some _ =>
        match cfg.uri with
        | none => .error .airflowConfigException
        | some _ =>
          if w.bindOk dn password then
            .ok { dn := dn, password := password }
          else
            .error (.authenticationError "Cannot bind to ldap server")

/-- Python `str.lower()`: lower-case every character. -/
def pyLower (s : String) : String := String.mk (s.toList.map Char.toLower)

/-- `'(&({0}))'.format(group_filter)`. -/
def mkGroupFilter (group_filter : String) : String :=
  "(&(" ++ group_filter ++ "))"

/-- `"(&({0})({1}={2}))".format(user_filter, user_name_attr, username)`
(the same format string is built in `groups_user` and in `try_login`). -/
def mkUserSearchFilter (user_filter user_name_attr username : String) : String :=
  "(&(" ++ user_filter ++ ")(" ++ user_name_attr ++ "=" ++ username ++ "))"

/-- The `for entry in conn.entries:` loop of `group_contains_user`.
For each entry, in order, `getattr(entry, user_name_attr)` is
evaluated first: on an entry that does not carry the attribute it
raises ldap3's `LDAPCursorAttributeError`, aborting the loop.
Otherwise `.values` is the value list and the loop returns `True`
as soon as `username.lower()` occurs among the lowered values;
falling off the end reaches the final `return False`. -/
def scanEntriesForUser (attr username : String) :
    List Entry → Except PyError Bool
  | [] => .ok false
  | e :: rest =>
    if e.hasAttr attr then
      if (e.getAttr attr).any (fun v => pyLower v == pyLower username) then
        .ok true
      else
        scanEntriesForUser attr username rest
    else
      .error .ldapCursorAttributeError

/-- `group_contains_user(conn, search_base, group_filter, user_name_attr,
username)`.

Builds the filter `(&(<group_filter>))`; when the search indicator
reports failure it only logs a warning and falls through to
`return False`; otherwise it scans `conn.entries` in order
(`scanEntriesForUser`): it returns `True` at the first entry whose
`user_name_attr` value list contains `username` up to `str.lower()`,
raises `LDAPCursorAttributeError` at the first entry that lacks the
attribute (`getattr` on an ldap3 `Entry`), and reaches the final
`return False` otherwise — which also covers zero entries. -/
def group_contains_user (w : LdapWorld) (_conn : Conn)
    (search_base group_filter user_name_attr username : String) :
    Except PyError Bool :=
  let search_filter := mkGroupFilter group_filter
  if !w.searchOk search_base search_filter [user_name_attr] ldap3DefaultScope then
    .ok false
  else
    scanEntriesForUser user_name_attr username
      (w.searchResponse search_base search_filter [user_name_attr]
        ldap3DefaultScope)

/-- Case-insensitive prefix test on character lists (the effect of
`re.IGNORECASE` on the literal part of the pattern). -/
def ciPrefix : List Char → List Char → Bool
  | [], _ => true
  | _ :: _, [] => false
  | p :: ps, c :: cs => (p.toLower == c.toLower) && ciPrefix ps cs

/-- `re.search` with pattern `cn=([^,]*).*` and `re.IGNORECASE`: scan
left to right for the first position where `cn=` matches
case-insensitively; group 1 is then the maximal run of non-comma
characters that follows.  Returns `none` when no position matches
(`re.search` returns `None`). -/
def cnSearch : List Char → Option (List Char)
  | [] => none
  | c :: cs =>
    if ciPrefix ['c', 'n', '='] (c :: cs) then
      some ((cs.drop 2).takeWhile (fun x => x ≠ ','))
    else
      cnSearch cs

/-- Whether the regex `cn=([^,]*).*` matches anywhere in the string,
i.e. whether `re.search` returns a match object rather than `None`. -/
def hasCn (l : List Char) : Bool :=
  match l with
  | [] => false
  | c :: cs => ciPrefix ['c', 'n', '='] (c :: cs) || hasCn cs

/-- The list comprehension
`[regex.search(i).group(1) for i in user_groups]`, evaluated left to
right.  On a value where the regex does not match, `regex.search(i)`
is `None` and `.group(1)` raises `AttributeError` (an `IndexError`
never arises: the pattern always has a group 1). -/
def cnExtractList : List String → Except PyError (List String)
  | [] => .ok []
  | i :: rest =>
    match cnSearch i.toList with
    | none => .error .attributeError
    | some g => (cnExtractList rest).map fun l => String.mk g :: l

/-- `groups_user(conn, search_base, user_filter, user_name_att,
username)`.

Builds `(&(<user_filter>)(<user_name_att>=<username>))`, resolves the
memberOf attribute name from configuration (`"memberOf"` when the key
is absent — here every exception is caught), searches.  A failed
search indicator raises `AuthenticationError("Invalid username or
password")`.  When `conn.response` is non-empty and its first entry's
attribute dict lacks the memberOf attribute, returns `[]` with a
warning.  (When `conn.response` is empty the guard on line 135 is
false and `conn.response[0]` on line 142 raises `IndexError`.)
Otherwise extracts CNs with the regex; the surrounding
`except IndexError` never fires, so an `AttributeError` from a
non-matching value propagates. -/
def groups_user (w : LdapWorld) (cfg : LdapConfig) (_conn : Conn)
    (search_base user_filter user_name_att username : String) :
    Except PyError (List String) :=
  let search_filter := mkUserSearchFilter user_filter user_name_att username
  let memberof_attr := cfg.group_member_attr.getD "memberOf"
  if !w.searchOk search_base search_filter [memberof_attr] ldap3DefaultScope then
    .error (.authenticationError "Invalid username or password")
  else
    match w.searchResponse search_base search_filter [memberof_attr]
        ldap3DefaultScope with
    | [] => .error .indexError
    | e0 :: _ =>
      if !e0.hasAttr memberof_attr then
        .ok []
      else
        let user_groups := e0.getAttr memberof_attr
        match cnExtractList user_groups with
        | .ok l => .ok l
        | .error e => if e = .indexError then .ok [] else .error e

/-- The fields `LdapUser.__init__` computes: the superuser flag, the
data-profiler flag, and the list of group CNs. -/
structure LdapUserState where
  superuser : Bool
  data_profiler : Bool
  ldap_groups : List String
  deriving DecidableEq, Repr

/-- The shared shape of the superuser and data-profiler blocks in
`LdapUser.__init__`: a falsy filter (absent key — the caught
`AirflowConfigException` left the local `None` — or present but empty)
yields `True` without touching the directory, with a "Missing
configuration ... or empty. Skipping." debug log; otherwise the flag
is `group_contains_user(conn, conf.get("ldap", "basedn"), filter,
conf.get("ldap", "user_name_attr"), user.username)`, whose two
unguarded `conf.get` calls can raise `AirflowConfigException`, and
whose `getattr` on an attribute-less entry can raise
`LDAPCursorAttributeError` — the whole block is unguarded. -/
def resolveFlag (w : LdapWorld) (cfg : LdapConfig) (conn : Conn)
    (filt : Option String) (username : String) : Except PyError Bool :=
  if !pyTruthy filt then
    .ok true
  else
    match confGet cfg.basedn with
    | .error e => .error e
    | .ok bd =>
      match confGet cfg.user_name_attr with
      | .error e => .error e
      | .ok una =>
        group_contains_user w conn bd (filt.getD "") una username

/-- The group-list block of `LdapUser.__init__`: the three `conf.get`
arguments and the `groups_user` call, all evaluated inside
`try: ... except AirflowConfigException`. -/
def groupsLookup (w : LdapWorld) (cfg : LdapConfig) (conn : Conn)
    (username : String) : Except PyError (List String) :=
  match confGet cfg.basedn with
  | .error e => .error e
  | .ok bd =>
    match confGet cfg.user_filter with
    | .error e => .error e
    | .ok uf =>
      match confGet cfg.user_name_attr with
      | .error e => .error e
      | .ok una => groups_user w cfg conn bd uf una username

/-- `LdapUser.__init__(self, user)`.

1. binds the service account (`conf.get` on `bind_user`/`bind_password`
   is unguarded, as is everything `get_ldap_connection` raises);
2. resolves the superuser flag, then the data-profiler flag, via
   `resolveFlag`;
3. resolves the group list: `groupsLookup` inside
   `try: ... except AirflowConfigException`, so only a missing
   configuration key leaves `ldap_groups = []` ("Missing configuration
   for ldap settings. Skipping"); every other exception — in
   particular the `AuthenticationError` raised by `groups_user` when
   the search indicator reports failure — propagates out of the
   constructor. -/
def ldapUser_init (w : LdapWorld) (cfg : LdapConfig) (username : String) :
    Except PyError LdapUserState :=
  match confGet cfg.bind_user with
  | .error e => .error e
  | .ok bu =>
  match confGet cfg.bind_password with
  | .error e => .error e
  | .ok bp =>
  match get_ldap_connection w cfg (some bu) (some bp) with
  | .error e => .error e
  | .ok conn =>
  match resolveFlag w cfg conn cfg.superuser_filter username with
  | .error e => .error e
  | .ok superuser =>
  match resolveFlag w cfg conn cfg.data_profiler_filter username with
  | .error e => .error e
  | .ok data_profiler =>
  match groupsLookup w cfg conn username with
  | .ok gs =>
      .ok { superuser := superuser, data_profiler := data_profiler,
            ldap_groups := gs }
  | .error e =>
      if e = .airflowConfigException then
        .ok { superuser := superuser, data_profiler := data_profiler,
              ldap_groups := [] }
      else
        .error e

/-- `is_superuser(self)`: returns `self.superuser`. -/
def LdapUserState.is_superuser (st : LdapUserState) : Bool := st.superuser

/-- `data_profiling(self)`: returns `self.data_profiler`. -/
def LdapUserState.data_profiling (st : LdapUserState) : Bool := st.data_profiler

/-- Observable steps of `LdapUser.try_login`, recorded in the order the
source performs them. -/
inductive Event
  | serviceBind
  | searchUser
  | unbindService
  | userBind
  | passwordIncorrectBranch
  deriving DecidableEq, Repr

/-- Python truthiness of an ldap3 `Connection` object: the class
defines neither `__bool__` nor `__len__`, so every instance is
truthy. -/
def connTruthy (_ : Conn) : Bool := true

/-- The search scope `try_login` uses: `LEVEL` unless the
`search_scope` option is present and equals `"SUBTREE"`
(`conf.has_option` does not raise). -/
def configuredScope (cfg : LdapConfig) : SearchScope :=
  match cfg.search_scope with
  | some s => if s = "SUBTREE" then .subtree else .level
  | none => .level

/-- `LdapUser.try_login(username, password)`, instrumented with the
trace of directory operations it performs.

1. service bind (via `get_ldap_connection` and the cache);
2. search for the user's entry under `basedn` with filter
   `(&(<user_filter>)(<user_name_attr>=<username>))`, scope `LEVEL`
   unless the `search_scope` option equals `"SUBTREE"`;
   a failed indicator raises
   `AuthenticationError("Invalid username or password")`
   (`conn.response[0]` on an empty response raises `IndexError`);
3. `conn.unbind()`;
4. a response entry without a `'dn'` key raises the same
   `AuthenticationError`;
5. user bind with the discovered dn and the supplied password; a
   `KeyError` (never actually raised by `get_ldap_connection`) would
   become an `LdapException`;
6. `if not conn:` on the returned connection object guards the final
   "Password incorrect" branch. -/
def try_login (w : LdapWorld) (cfg : LdapConfig) (username password : String) :
    Except PyError Unit × List Event :=
  match confGet cfg.bind_user with
  | .error e => (.error e, [])
  | .ok bu =>
  match confGet cfg.bind_password with
  | .error e => (.error e, [])
  | .ok bp =>
  match get_ldap_connection w cfg (some bu) (some bp) with
  | .error e => (.error e, [.serviceBind])
  | .ok _conn =>
  match confGet cfg.user_filter with
  | .error e => (.error e, [.serviceBind])
  | .ok uf =>
  match confGet cfg.user_name_attr with
  | .error e => (.error e, [.serviceBind])
  | .ok una =>
  let search_filter := mkUserSearchFilter uf una username
  let search_scope : SearchScope := configuredScope cfg
  match confGet cfg.basedn with
  | .error e => (.error e, [.serviceBind])
  | .ok bd =>
  if !w.searchOk bd search_filter [] search_scope then
    (.error (.authenticationError "Invalid username or password"),
     [.serviceBind, .searchUser])
  else
    match w.searchResponse bd search_filter [] search_scope with
    | [] => (.error .indexError, [.serviceBind, .searchUser])
    | entry :: _ =>
      match entry.dn with
      | none =>
        (.error (.authenticationError "Invalid username or password"),
         [.serviceBind, .searchUser, .unbindService])
      | some edn =>
        match get_ldap_connection w cfg (some edn) (some password) with
        | .error e =>
          (if e = .keyError then
            .error (.ldapException
              ("Could not parse LDAP structure. " ++
               "Try setting search_scope in airflow.cfg, or check logs"))
           else .error e,
           [.serviceBind, .searchUser, .unbindService, .userBind])
        | .ok conn2 =>
          if connTruthy conn2 then
            (.ok (), [.serviceBind, .searchUser, .unbindService, .userBind])
          else
            (.error (.authenticationError "Invalid username or password"),
             [.serviceBind, .searchUser, .unbindService, .userBind,
              .passwordIncorrectBranch])

/-! ### Concrete scenarios

A complete configuration and a family of directory behaviours, used to
evaluate the embedded functions on concrete inputs. -/

/-- A fully-populated `[ldap]` configuration section. -/
def cfgFull : LdapConfig where
  uri := some "ldaps://ldap.example.com"
  bind_user := some "cn=svc,dc=example,dc=com"
  bind_password := some "svcpw"
  basedn := some "dc=example,dc=com"
  user_filter := some "objectClass=person"
  user_name_attr := some "uid"
  superuser_filter := none
  data_profiler_filter := none
  cacert := some "/etc/ssl/ca.pem"
  search_scope := some "SUBTREE"
  group_member_attr := none
  ignore_malformed_schema := some ""

/-- `cfgFull` with the optional `cacert` key absent. -/
def cfgNoCacert : LdapConfig := { cfgFull with cacert := none }

/-- `cfgFull` with the required `user_filter` key absent. -/
def cfgNoUserFilter : LdapConfig := { cfgFull with user_filter := none }

/-- `cfgFull` with a superuser filter configured. -/
def cfgSuFilter : LdapConfig :=
  { cfgFull with superuser_filter := some "cn=superusers" }

/-- The directory entry for user bob, member of the Admins group. -/
def bobEntry : Entry where
  dn := some "uid=bob,dc=example,dc=com"
  attributes :=
    [("memberOf", ["cn=Admins,ou=Groups,dc=example,dc=com"]), ("uid", ["bob"])]

/-- A directory in which every bind succeeds and every search finds
bob's entry. -/
def wAllGood : LdapWorld where
  bindOk := fun _ _ => true
  searchOk := fun _ _ _ _ => true
  searchResponse := fun _ _ _ _ => [bobEntry]

/-- The service-account connection of the concrete scenarios. -/
def connSvc : Conn where
  dn := some "cn=svc,dc=example,dc=com"
  password := some "svcpw"

/-- Binds succeed but every search indicator reports failure. -/
def wSearchFails : LdapWorld :=
  { wAllGood with searchOk := fun _ _ _ _ => false }

/-- Every bind fails (directory rejects the service account too). -/
def wServiceBindFails : LdapWorld :=
  { wAllGood with bindOk := fun _ _ => false }

/-- Only the service account can bind: the rebind as bob's dn with the
supplied password fails. -/
def wUserBindFails : LdapWorld :=
  { wAllGood with bindOk := fun d _ => d == some "cn=svc,dc=example,dc=com" }

/-- The search succeeds but the returned entry has no `'dn'` key. -/
def wNoDnEntry : LdapWorld :=
  { wAllGood with searchResponse := fun _ _ _ _ =>
      [{ dn := none, attributes := [] }] }

/-- bob's memberOf list holds one well-formed dn and then one value
with no `cn=` component. -/
def wMalformedTail : LdapWorld :=
  { wAllGood with searchResponse := fun _ _ _ _ =>
      [{ dn := some "uid=bob,dc=example,dc=com",
         attributes := [("memberOf",
           ["cn=Admins,ou=Groups,dc=example,dc=com", "malformed-value"])] }] }

/-- bob's memberOf list holds a single value with no `cn=` component. -/
def wBadGroupOnly : LdapWorld :=
  { wAllGood with searchResponse := fun _ _ _ _ =>
      [{ dn := some "uid=bob,dc=example,dc=com",
         attributes := [("memberOf", ["Admins.Groups"])] }] }

/-- bob's entry carries no memberOf attribute at all. -/
def wNoMemberOf : LdapWorld :=
  { wAllGood with searchResponse := fun _ _ _ _ =>
      [{ dn := some "uid=bob,dc=example,dc=com",
         attributes := [("uid", ["bob"])] }] }

/-- A group entry whose `uid` value list holds `"alice"` in lower
case. -/
def wAliceGroup : LdapWorld :=
  { wAllGood with searchResponse := fun _ _ _ _ =>
      [{ dn := some "cn=admins,ou=groups,dc=example,dc=com",
         attributes := [("uid", ["alice"])] }] }

/-- The group search returns first an entry that does not carry the
`uid` attribute at all, then an entry whose `uid` values contain
bob. -/
def wAttrlessThenMatch : LdapWorld :=
  { wAllGood with searchResponse := fun _ _ _ _ =>
      [{ dn := some "cn=admins,ou=groups,dc=example,dc=com",
         attributes := [] },
       { dn := some "cn=operators,ou=groups,dc=example,dc=com",
         attributes := [("uid", ["bob"])] }] }

/-! ### Helper lemmas -/

/-- A successful `get_ldap_connection` call pins the configuration
down: the four keys the function touches are all present and the bind
succeeded. -/
lemma get_ldap_connection_ok_inv {w : LdapWorld} {cfg : LdapConfig}
    {dn pw : Option String} {c : Conn}
    (h : get_ldap_connection w cfg dn pw = .ok c) :
    cfg.ignore_malformed_schema.isSome ∧ cfg.cacert.isSome ∧
      cfg.search_scope.isSome ∧ cfg.uri.isSome ∧ w.bindOk dn pw = true := by
  unfold get_ldap_connection at h
  repeat' split at h
  all_goals simp_all

/-- When the four configuration keys are present,
`get_ldap_connection` reduces to the outcome of the bind. -/
lemma get_ldap_connection_eq_bind {w : LdapWorld} {cfg : LdapConfig}
    (h₁ : cfg.ignore_malformed_schema.isSome) (h₂ : cfg.cacert.isSome)
    (h₃ : cfg.search_scope.isSome) (h₄ : cfg.uri.isSome)
    (dn pw : Option String) :
    get_ldap_connection w cfg dn pw
      = if w.bindOk dn pw then .ok { dn := dn, password := pw }
        else .error (.authenticationError "Cannot bind to ldap server") := by
  obtain ⟨i, hi⟩ := Option.isSome_iff_exists.mp h₁
  obtain ⟨ca, hca⟩ := Option.isSome_iff_exists.mp h₂
  obtain ⟨sc, hsc⟩ := Option.isSome_iff_exists.mp h₃
  obtain ⟨u, hu⟩ := Option.isSome_iff_exists.mp h₄
  unfold get_ldap_connection
  rw [hi, hca, hsc, hu]

/-- `get_ldap_connection` never raises `KeyError`, so the
`except KeyError` clause in `try_login` is dead. -/
lemma get_ldap_connection_ne_keyError (w : LdapWorld) (cfg : LdapConfig)
    (dn pw : Option String) :
    get_ldap_connection w cfg dn pw ≠ .error .keyError := by
  unfold get_ldap_connection
  repeat' split
  all_goals simp

/-- A string the regex does not match makes `re.search` return
`None`. -/
lemma cnSearch_eq_none {l : List Char} (h : hasCn l = false) :
    cnSearch l = none := by
  induction l with
  | nil => rfl
  | cons c cs ih =>
    unfold hasCn at h
    rw [Bool.or_eq_false_iff] at h
    unfold cnSearch
    rw [h.1]
    exact ih h.2

/-- Conversely, a `None` from `re.search` means the regex matches
nowhere. -/
lemma hasCn_of_cnSearch_some {l : List Char} {g : List Char}
    (h : cnSearch l = some g) : hasCn l = true := by
  induction l with
  | nil => simp [cnSearch] at h
  | cons c cs ih =>
    unfold cnSearch at h
    unfold hasCn
    by_cases hp : ciPrefix ['c', 'n', '='] (c :: cs) = true
    · rw [hp]; rfl
    · rw [Bool.not_eq_true] at hp
      rw [hp] at h
      rw [if_neg (by simp)] at h
      rw [hp, ih h]
      rfl

/-- One value without a `cn=` component anywhere in `user_groups`
aborts the whole comprehension with `AttributeError`. -/
lemma cnExtractList_error_of_bad {l : List String} {v : String}
    (hv : v ∈ l) (hbad : hasCn v.toList = false) :
    cnExtractList l = .error .attributeError := by
  induction l with
  | nil => cases hv
  | cons a rest ih =>
    rcases List.mem_cons.mp hv with h | h
    · subst h
      unfold cnExtractList
      rw [cnSearch_eq_none hbad]
    · unfold cnExtractList
      cases hs : cnSearch a.toList with
      | none => rfl
      | some g => rw [ih h]; rfl

/-- The comprehension either produces a list or raises
`AttributeError`; in particular it never raises the `IndexError` the
source tries to catch. -/
lemma cnExtractList_ok_or_attributeError (l : List String) :
    (∃ gs, cnExtractList l = .ok gs) ∨
      cnExtractList l = .error .attributeError := by
  induction l with
  | nil => exact .inl ⟨[], rfl⟩
  | cons a rest ih =>
    unfold cnExtractList
    cases hs : cnSearch a.toList with
    | none => exact .inr rfl
    | some g =>
      rcases ih with ⟨gs, hgs⟩ | herr
      · exact .inl ⟨String.mk g :: gs, by rw [hgs]; rfl⟩
      · exact .inr (by rw [herr]; rfl)

/-- A three-character case-insensitive prefix test only looks at the
first three characters. -/
lemma ciPrefix_three (p₁ p₂ p₃ c₁ c₂ c₃ : Char) (l l' : List Char) :
    ciPrefix [p₁, p₂, p₃] (c₁ :: c₂ :: c₃ :: l)
      = ciPrefix [p₁, p₂, p₃] (c₁ :: c₂ :: c₃ :: l') := by
  simp [ciPrefix]

/-- `re.search("cn=([^,]*).*", s, re.IGNORECASE)` on a string whose
first case-insensitive `cn=` occurrence follows the prefix `a`:
group 1 is the run of non-comma characters after that occurrence. -/
lemma cnSearch_append (a : List Char) (x y : Char) (t : List Char)
    (ha : hasCn a = false) (hx : x.toLower = 'c') (hy : y.toLower = 'n') :
    cnSearch (a ++ x :: y :: '=' :: t)
      = some (t.takeWhile fun ch => ch ≠ ',') := by
  induction a with
  | nil =>
    rw [List.nil_append]
    unfold cnSearch
    rw [if_pos]
    · simp
    · simp [ciPrefix, hx, hy]
  | cons z a' ih =>
    unfold hasCn at ha
    rw [Bool.or_eq_false_iff] at ha
    obtain ⟨h₁, h₂⟩ := ha
    have hcond :
        ciPrefix ['c', 'n', '='] (z :: (a' ++ x :: y :: '=' :: t)) = false := by
      match a' with
      | [] => simp [ciPrefix, hx]
      | [u] => simp [ciPrefix, hx]
      | u :: v :: a'' =>
        rw [show (u :: v :: a'') ++ x :: y :: '=' :: t
              = u :: v :: (a'' ++ x :: y :: '=' :: t) from rfl]
        rw [ciPrefix_three 'c' 'n' '=' z u v _ a'']
        exact h₁
    rw [List.cons_append]
    unfold cnSearch
    rw [hcond]
    rw [if_neg (by simp)]
    exact ih h₂

/-- `resolveFlag` ignores which connection object it is handed
(`group_contains_user` never reads its `conn` argument). -/
lemma resolveFlag_conn_irrel (w : LdapWorld) (cfg : LdapConfig)
    (c c' : Conn) (filt : Option String) (u : String) :
    resolveFlag w cfg c filt u = resolveFlag w cfg c' filt u := rfl

/-- Every trace `try_login` can produce is a prefix of
`[serviceBind, searchUser, unbindService, userBind]`. -/
lemma try_login_trace (w : LdapWorld) (cfg : LdapConfig) (u p : String) :
    (try_login w cfg u p).2 = []
    ∨ (try_login w cfg u p).2 = [.serviceBind]
    ∨ (try_login w cfg u p).2 = [.serviceBind, .searchUser]
    ∨ (try_login w cfg u p).2 = [.serviceBind, .searchUser, .unbindService]
    ∨ (try_login w cfg u p).2
        = [.serviceBind, .searchUser, .unbindService, .userBind] := by
  unfold try_login
  cases hbu : confGet cfg.bind_user with
  | error e => simp
  | ok bu =>
  try dsimp only
  cases hbp : confGet cfg.bind_password with
  | error e => simp
  | ok bp =>
  try dsimp only
  cases hcn : get_ldap_connection w cfg (some bu) (some bp) with
  | error e => simp
  | ok c =>
  try dsimp only
  cases huf : confGet cfg.user_filter with
  | error e => simp
  | ok uf =>
  try dsimp only
  cases huna : confGet cfg.user_name_attr with
  | error e => simp
  | ok una =>
  try dsimp only
  cases hbd : confGet cfg.basedn with
  | error e => simp
  | ok bd =>
  try dsimp only
  cases hok : w.searchOk bd (mkUserSearchFilter uf una u) []
      (configuredScope cfg) with
  | false => simp
  | true =>
  try dsimp only
  cases hresp : w.searchResponse bd (mkUserSearchFilter uf una u) []
      (configuredScope cfg) with
  | nil => simp
  | cons entry rest =>
  try dsimp only
  cases hdn : entry.dn with
  | none => simp
  | some edn =>
  try dsimp only
  cases hgc : get_ldap_connection w cfg (some edn) (some p) with
  | error e => simp
  | ok c2 => simp [connTruthy]

/-- Once the user bind is attempted, `try_login` either succeeds or
propagates `get_ldap_connection`'s bind error. -/
lemma try_login_userBind_cases (w : LdapWorld) (cfg : LdapConfig)
    (u p : String) (hmem : Event.userBind ∈ (try_login w cfg u p).2) :
    (try_login w cfg u p).1 = .ok ()
    ∨ (try_login w cfg u p).1
        = .error (.authenticationError "Cannot bind to ldap server") := by
  unfold try_login at hmem ⊢
  cases hbu : confGet cfg.bind_user with
  | error e => simp only [hbu] at hmem; simp at hmem
  | ok bu =>
  simp only [hbu] at hmem ⊢
  cases hbp : confGet cfg.bind_password with
  | error e => simp only [hbp] at hmem; simp at hmem
  | ok bp =>
  simp only [hbp] at hmem ⊢
  cases hcn : get_ldap_connection w cfg (some bu) (some bp) with
  | error e => simp only [hcn] at hmem; simp at hmem
  | ok c =>
  simp only [hcn] at hmem ⊢
  cases huf : confGet cfg.user_filter with
  | error e => simp only [huf] at hmem; simp at hmem
  | ok uf =>
  simp only [huf] at hmem ⊢
  cases huna : confGet cfg.user_name_attr with
  | error e => simp only [huna] at hmem; simp at hmem
  | ok una =>
  simp only [huna] at hmem ⊢
  cases hbd : confGet cfg.basedn with
  | error e => simp only [hbd] at hmem; simp at hmem
  | ok bd =>
  simp only [hbd] at hmem ⊢
  cases hok : w.searchOk bd (mkUserSearchFilter uf una u) []
      (configuredScope cfg) with
  | false => simp only [hok, Bool.not_false, if_true] at hmem; simp at hmem
  | true =>
  simp only [hok, Bool.not_true, Bool.false_eq_true, if_false] at hmem ⊢
  cases hresp : w.searchResponse bd (mkUserSearchFilter uf una u) []
      (configuredScope cfg) with
  | nil => simp only [hresp] at hmem; simp at hmem
  | cons entry rest =>
  simp only [hresp] at hmem ⊢
  cases hdn : entry.dn with
  | none => simp only [hdn] at hmem; simp at hmem
  | some edn =>
  simp only [hdn] at hmem ⊢
  obtain ⟨h₁, h₂, h₃, h₄, _⟩ := get_ldap_connection_ok_inv hcn
  rw [get_ldap_connection_eq_bind (w := w) h₁ h₂ h₃ h₄ (some edn) (some p)]
  cases hbind : w.bindOk (some edn) (some p) with
  | true =>
    rw [if_pos rfl]
    exact .inl (by simp [connTruthy])
  | false =>
    rw [if_neg (by simp)]
    exact .inr (by simp)

/-! ### Claims -/

/-- C1: the claim says an absent optional key — in particular
`cacert` — triggers the documented default behaviour (TLS validation
config skipped, connection attempt proceeds) rather than an error.
The code disagrees: `conf.get("ldap", "cacert")` raises, the
`except AirflowConfigException: pass` swallows it without assigning
the local, and `Tls(..., ca_certs_file=cacert)` then reads the
never-assigned local and raises `UnboundLocalError` — the connection
is never attempted even though the directory would accept the bind
(third conjunct: with the key present the very same call succeeds). -/
theorem C1_cacert_absent_is_unbound_local_error :
    get_ldap_connection wAllGood cfgNoCacert
        (some "cn=svc,dc=example,dc=com") (some "svcpw")
      = .error (.nameError "cacert")
    ∧ wAllGood.bindOk (some "cn=svc,dc=example,dc=com") (some "svcpw") = true
    ∧ get_ldap_connection wAllGood cfgFull
        (some "cn=svc,dc=example,dc=com") (some "svcpw")
      = .ok { dn := some "cn=svc,dc=example,dc=com",
              password := some "svcpw" } :=
  ⟨rfl, rfl, rfl⟩

/-- C2 counterexample: a failed service bind and a failed user bind
surface as the very same error value,
`AuthenticationError("Cannot bind to ldap server")`, so the caller of
`try_login` cannot distinguish the two outcomes, contrary to the
claimed DirectoryUnreachable / InvalidCredentials split. -/
theorem C2_counterexample :
    (try_login wServiceBindFails cfgFull "bob" "pw").1
        = .error (.authenticationError "Cannot bind to ldap server")
    ∧ (try_login wUserBindFails cfgFull "bob" "pw").1
        = .error (.authenticationError "Cannot bind to ldap server")
    ∧ (try_login wServiceBindFails cfgFull "bob" "pw").1
        = (try_login wUserBindFails cfgFull "bob" "pw").1 :=
  ⟨rfl, rfl, rfl⟩

/-- C2 amended: both bind failures propagate `get_ldap_connection`'s
single `AuthenticationError("Cannot bind to ldap server")`: the
service-bind failure (first conjunct) and the failure of the bind with
the discovered user dn and the supplied password (second conjunct)
yield identical error values, so the caller cannot tell them apart. -/
theorem C2_amended (w : LdapWorld) (cfg : LdapConfig) (u p bu bp : String)
    (hbu : cfg.bind_user = some bu) (hbp : cfg.bind_password = some bp) :
    (get_ldap_connection w cfg (some bu) (some bp)
        = .error (.authenticationError "Cannot bind to ldap server") →
      (try_login w cfg u p).1
        = .error (.authenticationError "Cannot bind to ldap server"))
    ∧ ∀ (c : Conn) (uf una bd : String) (entry : Entry)
        (rest : List Entry) (edn : String),
        get_ldap_connection w cfg (some bu) (some bp) = .ok c →
        cfg.user_filter = some uf → cfg.user_name_attr = some una →
        cfg.basedn = some bd →
        w.searchOk bd (mkUserSearchFilter uf una u) []
            (configuredScope cfg) = true →
        w.searchResponse bd (mkUserSearchFilter uf una u) []
            (configuredScope cfg) = entry :: rest →
        entry.dn = some edn →
        w.bindOk (some edn) (some p) = false →
        (try_login w cfg u p).1
          = .error (.authenticationError "Cannot bind to ldap server") := by
  constructor
  · intro h
    simp only [try_login, hbu, hbp, confGet, h]
  · intro c uf una bd entry rest edn hconn huf huna hbd hsOk hresp hdn hbind
    obtain ⟨h₁, h₂, h₃, h₄, _⟩ := get_ldap_connection_ok_inv hconn
    have huser := get_ldap_connection_eq_bind (w := w) h₁ h₂ h₃ h₄
      (some edn) (some p)
    rw [hbind, if_neg (by simp)] at huser
    simp only [try_login, hbu, hbp, confGet, hconn, huf, huna, hbd, hsOk,
      Bool.not_true, Bool.false_eq_true, if_false, hresp, hdn, huser,
      if_neg (by simp : ¬ PyError.authenticationError
        "Cannot bind to ldap server" = PyError.keyError)]

/-- C2 amended, witness: the two bind-failure scenarios at a concrete
configuration. -/
theorem C2_amended_witness :
    (try_login wServiceBindFails cfgFull "bob" "pw").1
        = .error (.authenticationError "Cannot bind to ldap server")
    ∧ (try_login wUserBindFails cfgFull "bob" "wrong").1
        = .error (.authenticationError "Cannot bind to ldap server") := by
  constructor
  · exact (C2_amended wServiceBindFails cfgFull "bob" "pw"
      "cn=svc,dc=example,dc=com" "svcpw" rfl rfl).1 rfl
  · exact (C2_amended wUserBindFails cfgFull "bob" "wrong"
      "cn=svc,dc=example,dc=com" "svcpw" rfl rfl).2
      { dn := some "cn=svc,dc=example,dc=com", password := some "svcpw" }
      "objectClass=person" "uid" "dc=example,dc=com" bobEntry []
      "uid=bob,dc=example,dc=com" rfl rfl rfl rfl rfl rfl rfl rfl

/-- C3 counterexample: bob's memberOf list holds the well-formed
`"cn=Admins,ou=Groups,dc=example,dc=com"` followed by a value with no
`cn=` prefix.  Instead of skipping the malformed value with a warning
and still returning `["Admins"]`, `groups_user` aborts the whole
lookup: `regex.search` returns `None`, `.group(1)` raises
`AttributeError`, and the `except IndexError` clause does not catch
it. -/
theorem C3_counterexample :
    groups_user wMalformedTail cfgFull connSvc "dc=example,dc=com"
        "objectClass=person" "uid" "bob"
      = .error .attributeError := rfl

/-- C3 amended: whenever any value of the first entry's memberOf list
has no case-insensitive `cn=` occurrence, the whole lookup aborts with
an uncaught `AttributeError`; the CNs of the well-formed values are
not returned. -/
theorem C3_amended (w : LdapWorld) (cfg : LdapConfig) (conn : Conn)
    (search_base user_filter user_name_att username v : String)
    (e0 : Entry) (rest : List Entry)
    (hok : w.searchOk search_base
        (mkUserSearchFilter user_filter user_name_att username)
        [cfg.group_member_attr.getD "memberOf"] ldap3DefaultScope = true)
    (hresp : w.searchResponse search_base
        (mkUserSearchFilter user_filter user_name_att username)
        [cfg.group_member_attr.getD "memberOf"] ldap3DefaultScope
        = e0 :: rest)
    (hattr : e0.hasAttr (cfg.group_member_attr.getD "memberOf") = true)
    (hv : v ∈ e0.getAttr (cfg.group_member_attr.getD "memberOf"))
    (hbad : hasCn v.toList = false) :
    groups_user w cfg conn search_base user_filter user_name_att username
      = .error .attributeError := by
  simp only [groups_user, hok, Bool.not_true, Bool.false_eq_true, if_false,
    hresp, hattr, cnExtractList_error_of_bad hv hbad,
    if_neg (by simp : ¬ PyError.attributeError = PyError.indexError)]

/-- C3 amended, witness: the concrete mixed list
`["cn=Admins,ou=Groups,dc=example,dc=com", "malformed-value"]`. -/
theorem C3_amended_witness :
    groups_user wMalformedTail cfgFull connSvc "dc=example,dc=com"
        "objectClass=person" "uid" "bob"
      = .error .attributeError := by
  exact C3_amended wMalformedTail cfgFull connSvc "dc=example,dc=com"
    "objectClass=person" "uid" "bob" "malformed-value"
    { dn := some "uid=bob,dc=example,dc=com",
      attributes := [("memberOf",
        ["cn=Admins,ou=Groups,dc=example,dc=com", "malformed-value"])] }
    [] rfl rfl rfl (by decide) (by decide)

/-- Inverting a successful `LdapUser.__init__`: the stored superuser
flag is exactly what the superuser block computed for
`superuser_filter`. -/
lemma ldapUser_init_ok_superuser {w : LdapWorld} {cfg : LdapConfig}
    {username : String} {st : LdapUserState}
    (h : ldapUser_init w cfg username = .ok st) (conn : Conn) :
    resolveFlag w cfg conn cfg.superuser_filter username
      = .ok st.superuser := by
  unfold ldapUser_init at h
  cases hbu : confGet cfg.bind_user with
  | error e => simp only [hbu] at h; exact absurd h (by simp)
  | ok bu =>
  simp only [hbu] at h
  cases hbp : confGet cfg.bind_password with
  | error e => simp only [hbp] at h; exact absurd h (by simp)
  | ok bp =>
  simp only [hbp] at h
  cases hcn : get_ldap_connection w cfg (some bu) (some bp) with
  | error e => simp only [hcn] at h; exact absurd h (by simp)
  | ok conn0 =>
  simp only [hcn] at h
  rw [resolveFlag_conn_irrel w cfg conn conn0]
  cases hsu : resolveFlag w cfg conn0 cfg.superuser_filter username with
  | error e => simp only [hsu] at h; exact absurd h (by simp)
  | ok su =>
  simp only [hsu] at h
  cases hdp : resolveFlag w cfg conn0 cfg.data_profiler_filter username with
  | error e => simp only [hdp] at h; exact absurd h (by simp)
  | ok dp =>
  simp only [hdp] at h
  cases hg : groupsLookup w cfg conn0 username with
  | ok gs =>
    simp only [hg] at h
    injection h with h'
    rw [← h']
  | error e =>
    simp only [hg] at h
    by_cases he : e = .airflowConfigException
    · rw [if_pos he] at h
      injection h with h'
      rw [← h']
    · rw [if_neg he] at h
      exact absurd h (by simp)

/-- C4: if `superuser_filter` is unset, every successfully constructed
identity reports `is_superuser() = True`, regardless of group
membership; if it is set (present and non-empty) and
`group_contains_user` reports that the user is not a member of the
matching group, `is_superuser() = False`. -/
theorem C4_superuser_flag (w : LdapWorld) (cfg : LdapConfig)
    (username : String) (st : LdapUserState)
    (h : ldapUser_init w cfg username = .ok st) :
    (cfg.superuser_filter = none → st.is_superuser = true)
    ∧ ∀ (f bd una : String),
        cfg.superuser_filter = some f → f ≠ "" →
        cfg.basedn = some bd → cfg.user_name_attr = some una →
        group_contains_user w connSvc bd f una username = .ok false →
        st.is_superuser = false := by
  have hr := ldapUser_init_ok_superuser h connSvc
  constructor
  · intro hsf
    rw [hsf] at hr
    unfold resolveFlag at hr
    simp only [pyTruthy, Bool.not_false, if_true] at hr
    injection hr with h'
    unfold LdapUserState.is_superuser
    exact h'.symm
  · intro f bd una hsf hf hbd huna hgc
    rw [hsf] at hr
    unfold resolveFlag at hr
    have hfe : f.isEmpty = false := by
      cases hfe : f.isEmpty
      · rfl
      · exact absurd ((String.isEmpty_iff f).mp hfe) hf
    simp only [pyTruthy, hfe, Bool.not_false, Bool.not_true,
      Bool.false_eq_true, if_false, hbd, huna, confGet,
      Option.getD_some, hgc] at hr
    injection hr with h'
    unfold LdapUserState.is_superuser
    exact h'.symm

/-- C4 witness: with no superuser filter configured the constructed
identity is a superuser; with a filter configured and bob not in the
matching group, it is not. -/
theorem C4_superuser_flag_witness :
    ({ superuser := true, data_profiler := true,
       ldap_groups := ["Admins"] } : LdapUserState).is_superuser = true
    ∧ ({ superuser := false, data_profiler := true,
         ldap_groups := [] } : LdapUserState).is_superuser = false :=
  ⟨(C4_superuser_flag wAllGood cfgFull "bob"
      { superuser := true, data_profiler := true, ldap_groups := ["Admins"] }
      rfl).1 rfl,
   (C4_superuser_flag wAliceGroup cfgSuFilter "bob"
      { superuser := false, data_profiler := true, ldap_groups := [] }
      rfl).2
     "cn=superusers" "dc=example,dc=com" "uid" rfl (by decide) rfl rfl
     rfl⟩

/-- C5: in the user-dn step of `try_login`, a failed search indicator
and a response entry without a `'dn'` key both raise the same
`AuthenticationError("Invalid username or password")`, with no
distinguishing error; and whenever the user bind is attempted the
service connection was unbound first — the trace is then exactly
`[serviceBind, searchUser, unbindService, userBind]`. -/
theorem C5_user_dn_step (w : LdapWorld) (cfg : LdapConfig) (u p : String) :
    (Event.userBind ∈ (try_login w cfg u p).2 →
      (try_login w cfg u p).2
        = [.serviceBind, .searchUser, .unbindService, .userBind])
    ∧ ∀ (c : Conn) (bu bp uf una bd : String),
        cfg.bind_user = some bu → cfg.bind_password = some bp →
        get_ldap_connection w cfg (some bu) (some bp) = .ok c →
        cfg.user_filter = some uf → cfg.user_name_attr = some una →
        cfg.basedn = some bd →
        ((w.searchOk bd (mkUserSearchFilter uf una u) []
              (configuredScope cfg) = false →
          (try_login w cfg u p).1
            = .error (.authenticationError "Invalid username or password"))
        ∧ ∀ (entry : Entry) (rest : List Entry),
            w.searchOk bd (mkUserSearchFilter uf una u) []
                (configuredScope cfg) = true →
            w.searchResponse bd (mkUserSearchFilter uf una u) []
                (configuredScope cfg) = entry :: rest →
            entry.dn = none →
            (try_login w cfg u p).1
              = .error
                  (.authenticationError "Invalid username or password")) := by
  constructor
  · intro hmem
    rcases try_login_trace w cfg u p with h | h | h | h | h <;> rw [h] at hmem ⊢
    · exact absurd hmem (by simp)
    · exact absurd hmem (by simp)
    · exact absurd hmem (by simp)
    · exact absurd hmem (by simp)
  · intro c bu bp uf una bd hbu hbp hconn huf huna hbd
    constructor
    · intro hok
      simp only [try_login, hbu, hbp, confGet, hconn, huf, huna, hbd, hok,
        Bool.not_false, if_true]
    · intro entry rest hok hresp hdn
      simp only [try_login, hbu, hbp, confGet, hconn, huf, huna, hbd, hok,
        Bool.not_true, Bool.false_eq_true, if_false, hresp, hdn]

/-- C5 witness: the three concrete scenarios — user bind attempted
only after the unbind, search-indicator failure, and dn-less entry. -/
theorem C5_user_dn_step_witness :
    (try_login wAllGood cfgFull "bob" "pw").2
        = [.serviceBind, .searchUser, .unbindService, .userBind]
    ∧ (try_login wSearchFails cfgFull "bob" "pw").1
        = .error (.authenticationError "Invalid username or password")
    ∧ (try_login wNoDnEntry cfgFull "bob" "pw").1
        = .error (.authenticationError "Invalid username or password") := by
  refine ⟨(C5_user_dn_step wAllGood cfgFull "bob" "pw").1 (by decide),
    ((C5_user_dn_step wSearchFails cfgFull "bob" "pw").2
      { dn := some "cn=svc,dc=example,dc=com", password := some "svcpw" }
      "cn=svc,dc=example,dc=com" "svcpw" "objectClass=person" "uid"
      "dc=example,dc=com" rfl rfl rfl rfl rfl rfl).1 rfl,
    ((C5_user_dn_step wNoDnEntry cfgFull "bob" "pw").2
      { dn := some "cn=svc,dc=example,dc=com", password := some "svcpw" }
      "cn=svc,dc=example,dc=com" "svcpw" "objectClass=person" "uid"
      "dc=example,dc=com" rfl rfl rfl rfl rfl rfl).2
      { dn := none, attributes := [] } [] rfl rfl rfl⟩

/-- C6 counterexample: the search indicator reports success, yet
`groups_user` still fails — bob's only memberOf value has no `cn=`
component, so the extraction raises `AttributeError`, which is neither
success nor the InvalidCredentials error. -/
theorem C6_counterexample :
    wBadGroupOnly.searchOk "dc=example,dc=com"
        (mkUserSearchFilter "objectClass=person" "uid" "bob") ["memberOf"]
        ldap3DefaultScope = true
    ∧ groups_user wBadGroupOnly cfgFull connSvc "dc=example,dc=com"
        "objectClass=person" "uid" "bob"
      = .error .attributeError :=
  ⟨rfl, rfl⟩

/-- C6 amended: `groups_user` fails with the InvalidCredentials
`AuthenticationError` exactly when the search indicator reports
failure, and returns `[]` when the search succeeds and the first
entry lacks the memberOf attribute — but a successful search can
still fail with `AttributeError` (malformed memberOf value) or
`IndexError` (empty response). -/
theorem C6_amended (w : LdapWorld) (cfg : LdapConfig) (conn : Conn)
    (search_base user_filter user_name_att username : String) :
    (groups_user w cfg conn search_base user_filter user_name_att username
        = .error (.authenticationError "Invalid username or password")
      ↔ w.searchOk search_base
          (mkUserSearchFilter user_filter user_name_att username)
          [cfg.group_member_attr.getD "memberOf"] ldap3DefaultScope = false)
    ∧ ∀ (e0 : Entry) (rest : List Entry),
        w.searchOk search_base
            (mkUserSearchFilter user_filter user_name_att username)
            [cfg.group_member_attr.getD "memberOf"] ldap3DefaultScope
          = true →
        w.searchResponse search_base
            (mkUserSearchFilter user_filter user_name_att username)
            [cfg.group_member_attr.getD "memberOf"] ldap3DefaultScope
          = e0 :: rest →
        e0.hasAttr (cfg.group_member_attr.getD "memberOf") = false →
        groups_user w cfg conn search_base user_filter user_name_att username
          = .ok [] := by
  constructor
  · cases hok : w.searchOk search_base
        (mkUserSearchFilter user_filter user_name_att username)
        [cfg.group_member_attr.getD "memberOf"] ldap3DefaultScope with
    | false =>
      simp only [groups_user, hok, Bool.not_false, if_true]
    | true =>
      simp only [groups_user, hok, Bool.not_true, Bool.false_eq_true,
        if_false]
      constructor
      · intro h
        exfalso
        revert h
        cases hresp : w.searchResponse search_base
            (mkUserSearchFilter user_filter user_name_att username)
            [cfg.group_member_attr.getD "memberOf"] ldap3DefaultScope with
        | nil => simp
        | cons e0 rest =>
          cases hattr : e0.hasAttr (cfg.group_member_attr.getD "memberOf") with
          | false => simp [hattr]
          | true =>
            simp only [hattr, Bool.not_true, Bool.false_eq_true, if_false]
            rcases cnExtractList_ok_or_attributeError
                (e0.getAttr (cfg.group_member_attr.getD "memberOf")) with
              ⟨gs, hgs⟩ | herr
            · simp [hgs]
            · simp [herr]
      · intro h
        exact absurd h (by simp)
  · intro e0 rest hok hresp hattr
    simp only [groups_user, hok, Bool.not_true, Bool.false_eq_true, if_false,
      hresp, hattr, Bool.not_false, if_true]

/-- C6 amended, witness: a failed indicator yields InvalidCredentials;
a successful search over an entry without memberOf yields `[]`. -/
theorem C6_amended_witness :
    groups_user wSearchFails cfgFull connSvc "dc=example,dc=com"
        "objectClass=person" "uid" "bob"
      = .error (.authenticationError "Invalid username or password")
    ∧ groups_user wNoMemberOf cfgFull connSvc "dc=example,dc=com"
        "objectClass=person" "uid" "bob"
      = .ok [] := by
  refine ⟨(C6_amended wSearchFails cfgFull connSvc "dc=example,dc=com"
      "objectClass=person" "uid" "bob").1.mpr rfl,
    (C6_amended wNoMemberOf cfgFull connSvc "dc=example,dc=com"
      "objectClass=person" "uid" "bob").2
      { dn := some "uid=bob,dc=example,dc=com",
        attributes := [("uid", ["bob"])] } [] rfl rfl rfl⟩

/-- When every scanned entry carries the attribute, the loop returns
`True` exactly when some entry's value list matches the username
case-insensitively. -/
lemma scanEntriesForUser_ok_true_iff (attr username : String)
    (l : List Entry) (hall : ∀ e ∈ l, e.hasAttr attr = true) :
    scanEntriesForUser attr username l = .ok true
      ↔ ∃ e ∈ l, ∃ v ∈ e.getAttr attr, pyLower v = pyLower username := by
  induction l with
  | nil => simp [scanEntriesForUser]
  | cons e rest ih =>
    have he : e.hasAttr attr = true := hall e (List.mem_cons_self e rest)
    have hrest : ∀ e' ∈ rest, e'.hasAttr attr = true :=
      fun e' h => hall e' (List.mem_cons_of_mem e h)
    unfold scanEntriesForUser
    rw [if_pos he]
    cases hm : (e.getAttr attr).any (fun v => pyLower v == pyLower username)
        with
    | true =>
      have hmatch : ∃ v ∈ e.getAttr attr, pyLower v = pyLower username := by
        simpa [List.any_eq_true] using hm
      simp only [if_pos rfl]
      constructor
      · intro _
        exact ⟨e, List.mem_cons_self e rest, hmatch⟩
      · intro _
        rfl
    | false =>
      rw [if_neg (by simp)]
      rw [ih hrest]
      constructor
      · rintro ⟨e', he', hv⟩
        exact ⟨e', List.mem_cons_of_mem e he', hv⟩
      · rintro ⟨e', he', hv⟩
        rcases List.mem_cons.mp he' with rfl | hmem
        · exfalso
          have : (e'.getAttr attr).any
              (fun v => pyLower v == pyLower username) = true := by
            simpa [List.any_eq_true] using hv
          rw [hm] at this
          exact absurd this (by simp)
        · exact ⟨e', hmem, hv⟩

/-- C7 counterexample: the search succeeds and the second returned
entry's `uid` values contain bob, yet `group_contains_user` does not
return `True` — the first entry carries no `uid` attribute, so
`getattr` raises `LDAPCursorAttributeError` before the matching entry
is ever inspected, refuting both the claimed iff and "never an
error". -/
theorem C7_counterexample :
    wAttrlessThenMatch.searchOk "dc=example,dc=com"
        (mkGroupFilter "cn=admins") ["uid"] ldap3DefaultScope = true
    ∧ (∃ e ∈ wAttrlessThenMatch.searchResponse "dc=example,dc=com"
          (mkGroupFilter "cn=admins") ["uid"] ldap3DefaultScope,
        ∃ v ∈ e.getAttr "uid", pyLower v = pyLower "bob")
    ∧ group_contains_user wAttrlessThenMatch connSvc "dc=example,dc=com"
        "cn=admins" "uid" "bob"
      = .error .ldapCursorAttributeError :=
  ⟨rfl,
   ⟨{ dn := some "cn=operators,ou=groups,dc=example,dc=com",
      attributes := [("uid", ["bob"])] }, by decide, "bob", by decide,
     by decide⟩,
   rfl⟩

/-- C7 amended: provided every returned entry carries the user
attribute, `group_contains_user` returns `True` iff the search
indicator reports success and some returned entry's value list
contains a value case-insensitively equal to the username; a failed
indicator or zero returned entries yield `False` without an error;
but when the first returned entry lacks the attribute the function
instead raises ldap3's `LDAPCursorAttributeError` (`getattr` on the
entry), aborting the scan. -/
theorem C7_amended (w : LdapWorld) (conn : Conn)
    (search_base group_filter user_name_attr username : String) :
    ((∀ e ∈ w.searchResponse search_base (mkGroupFilter group_filter)
          [user_name_attr] ldap3DefaultScope,
        e.hasAttr user_name_attr = true) →
      (group_contains_user w conn search_base group_filter user_name_attr
          username = .ok true
        ↔ w.searchOk search_base (mkGroupFilter group_filter)
              [user_name_attr] ldap3DefaultScope = true
          ∧ ∃ e ∈ w.searchResponse search_base (mkGroupFilter group_filter)
                [user_name_attr] ldap3DefaultScope,
              ∃ v ∈ e.getAttr user_name_attr, pyLower v = pyLower username))
    ∧ (w.searchOk search_base (mkGroupFilter group_filter) [user_name_attr]
          ldap3DefaultScope = false →
        group_contains_user w conn search_base group_filter user_name_attr
          username = .ok false)
    ∧ (w.searchResponse search_base (mkGroupFilter group_filter)
          [user_name_attr] ldap3DefaultScope = [] →
        group_contains_user w conn search_base group_filter user_name_attr
          username = .ok false)
    ∧ ∀ (e0 : Entry) (rest : List Entry),
        w.searchOk search_base (mkGroupFilter group_filter) [user_name_attr]
            ldap3DefaultScope = true →
        w.searchResponse search_base (mkGroupFilter group_filter)
            [user_name_attr] ldap3DefaultScope = e0 :: rest →
        e0.hasAttr user_name_attr = false →
        group_contains_user w conn search_base group_filter user_name_attr
          username = .error .ldapCursorAttributeError := by
  refine ⟨?_, ?_, ?_, ?_⟩
  · intro hall
    cases hok : w.searchOk search_base (mkGroupFilter group_filter)
        [user_name_attr] ldap3DefaultScope with
    | false =>
      simp only [group_contains_user, hok, Bool.not_false, if_true]
      simp
    | true =>
      simp only [group_contains_user, hok, Bool.not_true,
        Bool.false_eq_true, if_false]
      rw [scanEntriesForUser_ok_true_iff user_name_attr username _ hall]
      simp
  · intro hok
    simp only [group_contains_user, hok, Bool.not_false, if_true]
  · intro hresp
    cases hok : w.searchOk search_base (mkGroupFilter group_filter)
        [user_name_attr] ldap3DefaultScope with
    | false => simp only [group_contains_user, hok, Bool.not_false, if_true]
    | true =>
      simp only [group_contains_user, hok, Bool.not_true,
        Bool.false_eq_true, if_false, hresp, scanEntriesForUser]
  · intro e0 rest hok hresp hattr
    simp only [group_contains_user, hok, Bool.not_true, Bool.false_eq_true,
      if_false, hresp, scanEntriesForUser, hattr]

/-- C7 amended, witness: username `"Alice"` matches the directory
value `"alice"` when the entries carry the attribute; a failed search
indicator yields `False`; an attribute-less first entry raises
`LDAPCursorAttributeError`. -/
theorem C7_amended_witness :
    group_contains_user wAliceGroup connSvc "dc=example,dc=com" "cn=admins"
        "uid" "Alice" = .ok true
    ∧ group_contains_user wSearchFails connSvc "dc=example,dc=com"
        "cn=admins" "uid" "Alice" = .ok false
    ∧ group_contains_user wAttrlessThenMatch connSvc "dc=example,dc=com"
        "cn=admins" "uid" "Alice"
      = .error .ldapCursorAttributeError := by
  refine ⟨?_, ?_, ?_⟩
  · exact (C7_amended wAliceGroup connSvc "dc=example,dc=com"
      "cn=admins" "uid" "Alice").1 (by decide) |>.mpr
      ⟨rfl, { dn := some "cn=admins,ou=groups,dc=example,dc=com",
              attributes := [("uid", ["alice"])] },
        by decide, "alice", by decide, by decide⟩
  · exact (C7_amended wSearchFails connSvc "dc=example,dc=com"
      "cn=admins" "uid" "Alice").2.1 rfl
  · exact (C7_amended wAttrlessThenMatch connSvc "dc=example,dc=com"
      "cn=admins" "uid" "Alice").2.2.2
      { dn := some "cn=admins,ou=groups,dc=example,dc=com",
        attributes := [] }
      [{ dn := some "cn=operators,ou=groups,dc=example,dc=com",
         attributes := [("uid", ["bob"])] }]
      rfl rfl rfl

/-- C8: CN extraction takes, for each attribute value, the text after
the first case-insensitive `cn=` occurrence up to the first comma
(first conjunct, stated over the embedded `re.search` semantics for an
arbitrary split of the value); in particular the memberOf value
`"cn=Admins,ou=Groups,dc=example,dc=com"` yields exactly `"Admins"`,
and `groups_user` returns `["Admins"]` for an entry carrying it. -/
theorem C8_cn_extraction :
    (∀ (a : List Char) (x y : Char) (t : List Char),
        hasCn a = false → x.toLower = 'c' → y.toLower = 'n' →
        cnSearch (a ++ x :: y :: '=' :: t)
          = some (t.takeWhile fun ch => ch ≠ ','))
    ∧ cnSearch "cn=Admins,ou=Groups,dc=example,dc=com".toList
        = some "Admins".toList
    ∧ groups_user wAllGood cfgFull connSvc "dc=example,dc=com"
        "objectClass=person" "uid" "bob" = .ok ["Admins"] :=
  ⟨cnSearch_append, by decide, rfl⟩

/-- C8 witness: the general extraction equation applied to a concrete
value whose `cn=` occurrence is upper-case and mid-string. -/
theorem C8_cn_extraction_witness :
    cnSearch ("ou=Foo,".toList ++ 'C' :: 'N' :: '=' :: "Ops,dc=example".toList)
      = some ("Ops,dc=example".toList.takeWhile fun ch => ch ≠ ',') :=
  C8_cn_extraction.1 "ou=Foo,".toList 'C' 'N' "Ops,dc=example".toList
    (by decide) (by decide) (by decide)

/-- C9: `get_ldap_connection` never returns a falsy value — an ldap3
`Connection` object is always truthy — so the `if not conn` branch
after the user bind (the "Password incorrect" error) is unreachable:
no trace contains `passwordIncorrectBranch`, and once the user bind is
attempted the only failure `try_login` can surface is the
`AuthenticationError` raised inside `get_ldap_connection` itself. -/
theorem C9_not_conn_branch_unreachable (w : LdapWorld) (cfg : LdapConfig)
    (u p : String) :
    Event.passwordIncorrectBranch ∉ (try_login w cfg u p).2
    ∧ (Event.userBind ∈ (try_login w cfg u p).2 →
        (try_login w cfg u p).1 = .ok ()
        ∨ (try_login w cfg u p).1
            = .error (.authenticationError "Cannot bind to ldap server")) := by
  constructor
  · rcases try_login_trace w cfg u p with h | h | h | h | h <;> rw [h] <;>
      decide
  · exact try_login_userBind_cases w cfg u p

/-- C9 witness: a wrong password at a concrete directory — the user
bind is attempted and the outcome is the bind error raised inside
`get_ldap_connection`, not the "Password incorrect" branch. -/
theorem C9_not_conn_branch_unreachable_witness :
    Event.userBind ∈ (try_login wUserBindFails cfgFull "bob" "wrong").2
    ∧ ((try_login wUserBindFails cfgFull "bob" "wrong").1 = .ok ()
       ∨ (try_login wUserBindFails cfgFull "bob" "wrong").1
           = .error (.authenticationError "Cannot bind to ldap server")) :=
  ⟨by decide,
   (C9_not_conn_branch_unreachable wUserBindFails cfgFull "bob" "wrong").2
     (by decide)⟩

/-- C10: in `LdapUser.__init__` only `AirflowConfigException` from the
group-list lookup is caught (the group list is then left empty); the
`AuthenticationError` that `groups_user` raises when the search
indicator reports failure propagates out of the constructor, so
identity construction itself fails even for an authenticated user. -/
theorem C10_init_group_lookup_errors (w : LdapWorld) (cfg : LdapConfig)
    (username : String) :
    (∀ (bu bp : String) (c : Conn) (bd uf una : String),
      cfg.bind_user = some bu → cfg.bind_password = some bp →
      get_ldap_connection w cfg (some bu) (some bp) = .ok c →
      pyTruthy cfg.superuser_filter = false →
      pyTruthy cfg.data_profiler_filter = false →
      cfg.basedn = some bd → cfg.user_filter = some uf →
      cfg.user_name_attr = some una →
      w.searchOk bd (mkUserSearchFilter uf una username)
          [cfg.group_member_attr.getD "memberOf"] ldap3DefaultScope = false →
      ldapUser_init w cfg username
        = .error (.authenticationError "Invalid username or password"))
    ∧ ∀ (bu bp : String) (c : Conn),
      cfg.bind_user = some bu → cfg.bind_password = some bp →
      get_ldap_connection w cfg (some bu) (some bp) = .ok c →
      pyTruthy cfg.superuser_filter = false →
      pyTruthy cfg.data_profiler_filter = false →
      cfg.user_filter = none →
      ldapUser_init w cfg username
        = .ok { superuser := true, data_profiler := true,
                ldap_groups := [] } := by
  constructor
  · intro bu bp c bd uf una hbu hbp hconn hsu hdp hbd huf huna hok
    simp only [ldapUser_init, hbu, hbp, confGet, hconn, resolveFlag, hsu,
      hdp, Bool.not_false, if_true, groupsLookup, hbd, huf, huna,
      groups_user, hok, if_neg (by simp :
        ¬ PyError.authenticationError "Invalid username or password"
          = PyError.airflowConfigException)]
  · intro bu bp c hbu hbp hconn hsu hdp huf
    cases hbd : cfg.basedn with
    | none =>
      simp only [ldapUser_init, hbu, hbp, confGet, hconn, resolveFlag, hsu,
        hdp, Bool.not_false, if_true, groupsLookup, hbd, if_pos rfl]
    | some bd =>
      simp only [ldapUser_init, hbu, hbp, confGet, hconn, resolveFlag, hsu,
        hdp, Bool.not_false, if_true, groupsLookup, hbd, huf, if_pos rfl]

/-- C10 witness: at a concrete configuration, a failed group search
aborts identity construction with the InvalidCredentials error, while
a missing `user_filter` key is swallowed and yields an empty group
list. -/
theorem C10_init_group_lookup_errors_witness :
    ldapUser_init wSearchFails cfgFull "bob"
      = .error (.authenticationError "Invalid username or password")
    ∧ ldapUser_init wAllGood cfgNoUserFilter "bob"
      = .ok { superuser := true, data_profiler := true, ldap_groups := [] } :=
  ⟨(C10_init_group_lookup_errors wSearchFails cfgFull "bob").1
     "cn=svc,dc=example,dc=com" "svcpw"
     { dn := some "cn=svc,dc=example,dc=com", password := some "svcpw" }
     "dc=example,dc=com" "objectClass=person" "uid"
     rfl rfl rfl rfl rfl rfl rfl rfl rfl,
   (C10_init_group_lookup_errors wAllGood cfgNoUserFilter "bob").2
     "cn=svc,dc=example,dc=com" "svcpw"
     { dn := some "cn=svc,dc=example,dc=com", password := some "svcpw" }
     rfl rfl rfl rfl rfl rfl⟩

end LdapAuth
